import Mathlib

/-!
Verification of the confidential solvency accounting module
(`src/components/solvency/src/solvency.rs`).

The code of the module itself is embedded faithfully below.  External collaborators
are modelled at their interfaces, exactly as the specification scopes them:

* the curve25519 scalar field is `ZMod scalarFieldOrder` (the order of the
  Ristretto group);
* a `RistrettoPoint` in the subgroup spanned by the two public Pedersen
  generators `(B, B_blinding)` is represented by its exponent vector, so
  `commit v b = (v, b)`, point addition is componentwise and scalar
  multiplication acts on both coordinates — the standard generic-group model
  of the commitment algebra at its interface;
* a `CompressedRistretto` is `Option RistrettoPoint`: `some p` decompresses
  to `p`, `none` is a malformed encoding whose decompression fails;
* the ledger query service is an argument: `update` receives the
  `XfrAmount` answer (or the error of the query) instead of performing I/O;
* the zei proof engine (`prove_solvency` / `verify_solvency`) is an
  explicit `ProofEngine` argument, so theorems quantify over every possible
  engine behaviour and record exactly which account data reaches it;
* `R1CSProof` serialization is modelled at its interface: proof bytes
  either decode to a proof or are malformed (`none`).
-/

namespace Solvency

/-- Order of the Ristretto255/curve25519 scalar field. -/
def scalarFieldOrder : Nat :=
  7237005577332262213973186563042994240857116359379907606001950938285454250989

/-- Scalar values (curve25519 scalar field elements). -/
abbrev Scalar := ZMod scalarFieldOrder

/-- A Ristretto point in the span of the two public Pedersen generators,
represented by its exponent vector with respect to `(B, B_blinding)`. -/
abbrev RistrettoPoint := Scalar × Scalar

/-- A compressed Ristretto point: `some p` decompresses to `p`, while `none`
models a malformed encoding whose decompression fails. -/
abbrev CompressedRistretto := Option RistrettoPoint

/-- Point compression (`RistrettoPoint::compress`). -/
def compress (p : RistrettoPoint) : CompressedRistretto := some p

/-- Multiplication of a point by a scalar (`RistrettoPoint * Scalar`). -/
def pointMul (p : RistrettoPoint) (s : Scalar) : RistrettoPoint :=
  (s * p.1, s * p.2)

/-- Pedersen commitment with the shared public generators
(`PublicParams::new().pc_gens.commit`): in exponent coordinates the
commitment to `value` under blinding `blind` is the pair `(value, blind)`. -/
def pcGensCommit (value blind : Scalar) : RistrettoPoint :=
  (value, blind)

/-- Scalar values of the amount and type code of an asset or liability
(source type alias `AmountAndCodeScalar`). -/
abbrev AmountAndCodeScalar := Scalar × Scalar

/-- Commitment to the amount and associated type code
(source type alias `AmountAndCodeCommitment`). -/
abbrev AmountAndCodeCommitment := CompressedRistretto × CompressedRistretto

/-- Blinding values of the amount and type code
(source type alias `AmountAndCodeBlinds`). -/
abbrev AmountAndCodeBlinds := Scalar × Scalar

/-- Type code and associated conversion rate (source type alias `CodeAndRate`). -/
abbrev CodeAndRate := Scalar × Scalar

/-- An asset type code; `val` stands for the fixed-size code bytes. -/
structure AssetTypeCode where
  val : Nat
deriving DecidableEq

/-- Deterministic encoding of an asset type code into a scalar
(the zei function `asset_type_to_scalar`, modelled at its interface as a fixed
deterministic function of the code bytes). -/
def asset_type_to_scalar (v : Nat) : Scalar := (v : Scalar)

/-- Distinct `error_location!` call sites of the module; the source attaches a
distinct file/line string to each constructed error. -/
inductive ErrorLocation where
  | decompressElement
  | updateMismatch
  | updateMissingBlinds
  | proveEngine
  | verifyMissingProof
  | verifyEngine
deriving DecidableEq

/-- Errors of the external zei library observed by this module. -/
inductive ZeiError where
  | DecompressElementError
  | SolvencyProveError
  | SolvencyVerificationError
deriving DecidableEq

/-- The `PlatformError` variants this module constructs or propagates. -/
inductive PlatformError where
  | InputsError (loc : ErrorLocation)
  | ZeiError (loc : ErrorLocation) (e : ZeiError)
  | DeserializationError
deriving DecidableEq

/-- Decompression helper (`get_decompressed_commitment`): a malformed
compressed point fails with `ZeiError(DecompressElementError)`. -/
def get_decompressed_commitment (commitment : CompressedRistretto) :
    Except PlatformError RistrettoPoint :=
  match commitment with
  | some decompressed_commitment => .ok decompressed_commitment
  | none => .error (.ZeiError .decompressElement .DecompressElementError)

/-- An opaque bulletproofs `R1CSProof` object, modelled at its interface. -/
abbrev R1CSProof := Nat

/-- Serialized proof bytes: either the serialization of some proof, or a
byte string (`none`) that no proof serializes to. -/
abbrev ProofBytes := Option R1CSProof

/-- Serialization (`R1CSProof::to_bytes`). -/
def toBytes (p : R1CSProof) : ProofBytes := some p

/-- Deserialization (`R1CSProof::from_bytes`), failing on malformed bytes. -/
def fromBytes (b : ProofBytes) : Option R1CSProof := b

/-- Answer of the ledger query service (`XfrAmount`). -/
inductive XfrAmount where
  | NonConfidential (amount : Nat)
  | Confidential (commitments : CompressedRistretto × CompressedRistretto)
deriving DecidableEq

/-- Indicates whether the amount is of an asset or liability. -/
inductive AmountType where
  | Asset
  | Liability
deriving DecidableEq

/-- Asset and liability information, and associated solvency proof if it
exists (`AssetAndLiabilityAccount`). -/
structure AssetAndLiabilityAccount where
  public_assets : List AmountAndCodeScalar := []
  hidden_assets : List AmountAndCodeScalar := []
  hidden_assets_blinds : List AmountAndCodeBlinds := []
  hidden_assets_commitments : List AmountAndCodeCommitment := []
  public_liabilities : List AmountAndCodeScalar := []
  hidden_liabilities : List AmountAndCodeScalar := []
  hidden_liabilities_blinds : List AmountAndCodeBlinds := []
  hidden_liabilities_commitments : List AmountAndCodeCommitment := []
  proof : Option ProofBytes := none
deriving DecidableEq

/-- The sequence-mutating body of `update` (the `match` on the query answer
at lines 92–139 of the source): returns the account after step 2, or the
error of the failing early return.  The caller (`update`) clears the proof
slot on success, exactly as the source does after the `match`. -/
def updateSequences (a : AssetAndLiabilityAccount) (amount_type : AmountType)
    (amount : Nat) (code : AssetTypeCode)
    (blinds : Option ((Scalar × Scalar) × Scalar)) (xfr : XfrAmount) :
    Except PlatformError AssetAndLiabilityAccount :=
  let code_scalar := asset_type_to_scalar code.val
  match xfr with
  | .NonConfidential fetched_amount =>
    if fetched_amount ≠ amount then
      .error (.InputsError .updateMismatch)
    else
      match amount_type with
      | .Asset =>
        .ok { a with public_assets := a.public_assets ++ [((amount : Scalar), code_scalar)] }
      | .Liability =>
        .ok { a with public_liabilities := a.public_liabilities ++ [((amount : Scalar), code_scalar)] }
  | .Confidential (amount_commitment_low, amount_commitment_high) =>
    match blinds with
    | none => .error (.InputsError .updateMissingBlinds)
    | some ((amount_blind_low, amount_blind_high), code_blind) =>
      let amount_and_code_blinds :=
        (amount_blind_low + (4294967296 : Scalar) * amount_blind_high, code_blind)
      match get_decompressed_commitment amount_commitment_low with
      | .error e => .error e
      | .ok low_point =>
        match get_decompressed_commitment amount_commitment_high with
        | .error e => .error e
        | .ok high_point =>
          let amount_commitment := compress (low_point + pointMul high_point (4294967296 : Scalar))
          let code_commitment := compress (pcGensCommit code_scalar code_blind)
          let commitment := (amount_commitment, code_commitment)
          match amount_type with
          | .Asset =>
            .ok { a with
              hidden_assets :=
                a.hidden_assets ++ [((amount : Scalar), asset_type_to_scalar code.val)],
              hidden_assets_blinds := a.hidden_assets_blinds ++ [amount_and_code_blinds],
              hidden_assets_commitments := a.hidden_assets_commitments ++ [commitment] }
          | .Liability =>
            .ok { a with
              hidden_liabilities :=
                a.hidden_liabilities ++ [((amount : Scalar), asset_type_to_scalar code.val)],
              hidden_liabilities_blinds := a.hidden_liabilities_blinds ++ [amount_and_code_blinds],
              hidden_liabilities_commitments := a.hidden_liabilities_commitments ++ [commitment] }

/-- The `update` operation of `AssetAndLiabilityAccount`.  The ledger query
performed through `(utxo, protocol, host)` in the source is modelled by the
`query_result` argument: the `XfrAmount` the service answered, or the error
its `?` would propagate.  Mirroring `&mut self`, the result pairs the
`Result<(), PlatformError>` with the account after the call (unchanged
whenever an early return fires before any push). -/
def AssetAndLiabilityAccount.update (a : AssetAndLiabilityAccount)
    (amount_type : AmountType) (amount : Nat) (code : AssetTypeCode)
    (blinds : Option ((Scalar × Scalar) × Scalar))
    (query_result : Except PlatformError XfrAmount) :
    Except PlatformError Unit × AssetAndLiabilityAccount :=
  match query_result with
  | .error e => (.error e, a)
  | .ok xfr =>
    match updateSequences a amount_type amount code blinds xfr with
    | .error e => (.error e, a)
    | .ok a2 => (.ok (), { a2 with proof := none })

/-- A `LinearMap` from the `linear_map` crate, specialised as in the source
to scalar keys and scalar values: an association list with unique keys. -/
abbrev LinearMap := List (Scalar × Scalar)

/-- `LinearMap::insert`: replaces the value of an existing key in place,
otherwise appends the new pair at the end. -/
def linearMapInsert (m : LinearMap) (k v : Scalar) : LinearMap :=
  match m with
  | [] => [(k, v)]
  | (k2, v2) :: rest =>
    if k2 = k then (k, v) :: rest else (k2, v2) :: linearMapInsert rest k v

/-- `LinearMap::get`: the value of the first (and, under `insert`, only)
entry with the given key. -/
def linearMapGet (m : LinearMap) (k : Scalar) : Option Scalar :=
  match m with
  | [] => none
  | (k2, v2) :: rest => if k2 = k then some v2 else linearMapGet rest k

/-- The external zei proof engine, at the interface the module consumes:
`prove_solvency(hidden_assets, hidden_assets_blinds, public_assets,
hidden_liabilities, hidden_liabilities_blinds, public_liabilities, rates)`
and `verify_solvency(hidden_assets_commitments, public_assets,
hidden_liabilities_commitments, public_liabilities, rates, proof)`. -/
structure ProofEngine where
  prove_solvency : List AmountAndCodeScalar → List AmountAndCodeBlinds →
    List AmountAndCodeScalar → List AmountAndCodeScalar →
    List AmountAndCodeBlinds → List AmountAndCodeScalar → LinearMap →
    Except ZeiError R1CSProof
  verify_solvency : List AmountAndCodeCommitment → List AmountAndCodeScalar →
    List AmountAndCodeCommitment → List AmountAndCodeScalar → LinearMap →
    R1CSProof → Except ZeiError Unit

/-- Used to audit the solvency (`SolvencyAudit`). -/
structure SolvencyAudit where
  conversion_rates : List CodeAndRate := []
deriving DecidableEq

/-- Sets the conversion rate for an asset (`set_rate`): appends to the table. -/
def SolvencyAudit.set_rate (audit : SolvencyAudit) (code : AssetTypeCode)
    (rate : Nat) : SolvencyAudit :=
  { conversion_rates :=
      audit.conversion_rates ++ [(asset_type_to_scalar code.val, (rate : Scalar))] }

/-- The rate-lookup map built by the loop at lines 176–179 of the source
(inside `prove_solvency_and_store`). -/
def SolvencyAudit.rates_for_prove (audit : SolvencyAudit) : LinearMap :=
  audit.conversion_rates.foldl (fun m cr => linearMapInsert m cr.1 cr.2) []

/-- The rate-lookup map built by the loop at lines 204–207 of the source
(inside `verify_solvency`); the source duplicates the loop verbatim. -/
def SolvencyAudit.rates_for_verify (audit : SolvencyAudit) : LinearMap :=
  audit.conversion_rates.foldl (fun m cr => linearMapInsert m cr.1 cr.2) []

/-- Proves the solvency and stores the proof (`prove_solvency_and_store`).
The external engine is the explicit `engine` argument.  Mirroring
`&mut self`/`&mut account`, the result pairs the returned
`Result<(), PlatformError>` with the account after the call. -/
def SolvencyAudit.prove_solvency_and_store (audit : SolvencyAudit)
    (engine : ProofEngine) (account : AssetAndLiabilityAccount) :
    Except PlatformError Unit × AssetAndLiabilityAccount :=
  let rates := audit.rates_for_prove
  match engine.prove_solvency account.hidden_assets account.hidden_assets_blinds
      account.public_assets account.hidden_liabilities
      account.hidden_liabilities_blinds account.public_liabilities rates with
  | .error e => (.error (.ZeiError .proveEngine e), account)
  | .ok proof => (.ok (), { account with proof := some (toBytes proof) })

/-- Verifies the solvency proof (`verify_solvency`).  The account is taken by
shared reference in the source; the returned account is the argument itself,
unchanged, making the absence of mutation explicit in the result. -/
def SolvencyAudit.verify_solvency (audit : SolvencyAudit)
    (engine : ProofEngine) (account : AssetAndLiabilityAccount) :
    Except PlatformError Unit × AssetAndLiabilityAccount :=
  match account.proof with
  | none => (.error (.InputsError .verifyMissingProof), account)
  | some p =>
    match fromBytes p with
    | none => (.error .DeserializationError, account)
    | some proof =>
      let rates := audit.rates_for_verify
      match engine.verify_solvency account.hidden_assets_commitments
          account.public_assets account.hidden_liabilities_commitments
          account.public_liabilities rates proof with
      | .error e => (.error (.ZeiError .verifyEngine e), account)
      | .ok _ => (.ok (), account)

/-- Batch blind combination (`get_amount_and_code_blinds`): applies the
limb combination `low + 2^32 * high` to each raw blind triple. -/
def get_amount_and_code_blinds (blinds : List ((Scalar × Scalar) × Scalar)) :
    List (Scalar × Scalar) :=
  blinds.map (fun b => (b.1.1 + (4294967296 : Scalar) * b.1.2, b.2))

/-- The freshly created account (`AssetAndLiabilityAccount::default()`). -/
def emptyAccount : AssetAndLiabilityAccount := {}

/-- An engine that accepts everything: its prover always returns a proof and
its verifier always accepts. -/
def okEngine : ProofEngine where
  prove_solvency _ _ _ _ _ _ _ := .ok 42
  verify_solvency _ _ _ _ _ _ := .ok ()

/-- An engine that always fails, with the zei errors observed by the tests of the module itself (`SolvencyProveError` from the prover, `SolvencyVerificationError`
from the verifier). -/
def failEngine : ProofEngine where
  prove_solvency _ _ _ _ _ _ _ := .error .SolvencyProveError
  verify_solvency _ _ _ _ _ _ := .error .SolvencyVerificationError

/-- An engine whose verifier inspects the hidden asset commitments it is
given (accepting exactly the empty commitment list), used to exhibit that
`verify_solvency` — unlike `prove_solvency_and_store` — feeds the stored
commitment sequences to the engine. -/
def commitSensitiveEngine : ProofEngine where
  prove_solvency _ _ _ _ _ _ _ := .ok 0
  verify_solvency hac _ _ _ _ _ := if hac = [] then .ok () else .error .SolvencyVerificationError

/-- C3 (confirmed): for every account and every input, whenever `update`
returns success — in both the plaintext and the confidential branch —
`account.proof` is `None` afterwards. -/
theorem C3_update_clears_proof (a : AssetAndLiabilityAccount)
    (amount_type : AmountType) (amount : Nat) (code : AssetTypeCode)
    (blinds : Option ((Scalar × Scalar) × Scalar))
    (query_result : Except PlatformError XfrAmount)
    (h : (a.update amount_type amount code blinds query_result).1 = .ok ()) :
    (a.update amount_type amount code blinds query_result).2.proof = none := by
  simp only [AssetAndLiabilityAccount.update] at h ⊢
  cases query_result with
  | error e => simp at h
  | ok xfr =>
    cases hu : updateSequences a amount_type amount code blinds xfr with
    | error e => simp [hu] at h
    | ok a2 => simp [hu]

/-- C3 witness: a concrete successful plaintext update on an account whose
proof slot was occupied leaves the proof slot empty. -/
theorem C3_update_clears_proof_witness :
    (AssetAndLiabilityAccount.update { emptyAccount with proof := some (some 7) }
      .Asset 5 ⟨3⟩ none (.ok (.NonConfidential 5))).2.proof = none :=
  C3_update_clears_proof { emptyAccount with proof := some (some 7) }
    .Asset 5 ⟨3⟩ none (.ok (.NonConfidential 5)) rfl

/-- C4 (confirmed): whenever `update` returns an error, the whole account —
all eight sequences and the proof slot — is exactly its pre-call value; and
an update for a confidential output called without blinds fails with the
missing-blinds `InputsError` and leaves the account unchanged. -/
theorem C4_update_error_no_mutation :
    (∀ (a : AssetAndLiabilityAccount) (amount_type : AmountType) (amount : Nat)
       (code : AssetTypeCode) (blinds : Option ((Scalar × Scalar) × Scalar))
       (query_result : Except PlatformError XfrAmount) (e : PlatformError),
       (a.update amount_type amount code blinds query_result).1 = .error e →
       (a.update amount_type amount code blinds query_result).2 = a) ∧
    (∀ (a : AssetAndLiabilityAccount) (amount_type : AmountType) (amount : Nat)
       (code : AssetTypeCode) (lo hi : CompressedRistretto),
       a.update amount_type amount code none (.ok (.Confidential (lo, hi))) =
         (.error (.InputsError .updateMissingBlinds), a)) := by
  constructor
  · intro a amount_type amount code blinds query_result e h
    simp only [AssetAndLiabilityAccount.update] at h ⊢
    cases query_result with
    | error e2 => rfl
    | ok xfr =>
      cases hu : updateSequences a amount_type amount code blinds xfr with
      | error e2 => simp [hu]
      | ok a2 => simp [hu] at h
  · intro a amount_type amount code lo hi
    rfl

/-- C4 witness: a concrete amount-mismatch update error leaves the account
unchanged, and a concrete blind-less confidential update fails with the
missing-blinds `InputsError` leaving the account unchanged. -/
theorem C4_update_error_no_mutation_witness :
    (AssetAndLiabilityAccount.update emptyAccount .Asset 5 ⟨3⟩ none
      (.ok (.NonConfidential 6))).2 = emptyAccount ∧
    AssetAndLiabilityAccount.update emptyAccount .Liability 5 ⟨3⟩ none
      (.ok (.Confidential (some (1, 2), some (3, 4)))) =
      (.error (.InputsError .updateMissingBlinds), emptyAccount) :=
  ⟨C4_update_error_no_mutation.1 emptyAccount .Asset 5 ⟨3⟩ none
      (.ok (.NonConfidential 6)) (.InputsError .updateMismatch) rfl,
   C4_update_error_no_mutation.2 emptyAccount .Liability 5 ⟨3⟩
      (some (1, 2)) (some (3, 4))⟩

/-- C7 (confirmed): for a plaintext query outcome, a fetched amount different
from the claimed amount fails with the mismatch `InputsError` and appends
nothing; an equal amount appends exactly `(Scalar(amount), codeScalar)` to
the public assets sequence for `Asset` and to the public liabilities
sequence for `Liability`, leaving every other sequence unchanged. -/
theorem C7_plaintext_update (a : AssetAndLiabilityAccount) (amount fetched : Nat)
    (code : AssetTypeCode) (blinds : Option ((Scalar × Scalar) × Scalar)) :
    (fetched ≠ amount → ∀ amount_type,
      a.update amount_type amount code blinds (.ok (.NonConfidential fetched)) =
        (.error (.InputsError .updateMismatch), a)) ∧
    (a.update .Asset amount code blinds (.ok (.NonConfidential amount)) =
      (.ok (), { a with
        public_assets := a.public_assets ++ [((amount : Scalar), asset_type_to_scalar code.val)],
        proof := none })) ∧
    (a.update .Liability amount code blinds (.ok (.NonConfidential amount)) =
      (.ok (), { a with
        public_liabilities := a.public_liabilities ++ [((amount : Scalar), asset_type_to_scalar code.val)],
        proof := none })) := by
  refine ⟨fun h amount_type => ?_, ?_, ?_⟩
  · simp [AssetAndLiabilityAccount.update, updateSequences, h]
  · simp [AssetAndLiabilityAccount.update, updateSequences]
  · simp [AssetAndLiabilityAccount.update, updateSequences]

/-- C7 witness: on concrete inputs, a mismatching fetched amount yields the
mismatch error with the account untouched, and a matching plaintext update
appends one public asset entry. -/
theorem C7_plaintext_update_witness :
    AssetAndLiabilityAccount.update emptyAccount .Asset 5 ⟨3⟩ none
      (.ok (.NonConfidential 6)) = (.error (.InputsError .updateMismatch), emptyAccount) ∧
    AssetAndLiabilityAccount.update emptyAccount .Asset 5 ⟨3⟩ none
      (.ok (.NonConfidential 5)) =
      (.ok (), { emptyAccount with
        public_assets := [((5 : Scalar), asset_type_to_scalar 3)], proof := none }) :=
  ⟨(C7_plaintext_update emptyAccount 5 6 ⟨3⟩ none).1 (by decide) .Asset,
   (C7_plaintext_update emptyAccount 5 5 ⟨3⟩ none).2.1⟩

/-- Scalar multiplication on the commitment group agrees with the embedded
`RistrettoPoint * Scalar` operation. -/
theorem smul_eq_pointMul (c : Scalar) (p : RistrettoPoint) : c • p = pointMul p c := by
  cases p
  simp [pointMul, Prod.smul_mk, smul_eq_mul]

/-- C6 (confirmed): a confidential-branch `update` with blinds
`((low_blind, high_blind), code_blind)` and decompressible limb commitments
stores the blind pair `(low_blind + 2^32 * high_blind, code_blind)`, the
amount commitment `compress(decompress(C_low) + 2^32 • decompress(C_high))`,
and the code commitment `compress(Commit(codeScalar, code_blind))` under the
shared generators, appending record, blinds and commitment to the three
hidden sequences selected by the kind — at the common index when the three
sequences had equal length. -/
theorem C6_confidential_update (a : AssetAndLiabilityAccount) (amount : Nat)
    (code : AssetTypeCode) (amount_blind_low amount_blind_high code_blind : Scalar)
    (low_point high_point : RistrettoPoint) :
    (a.update .Asset amount code
        (some ((amount_blind_low, amount_blind_high), code_blind))
        (.ok (.Confidential (some low_point, some high_point))) =
      (.ok (), { a with
        hidden_assets := a.hidden_assets ++
          [((amount : Scalar), asset_type_to_scalar code.val)],
        hidden_assets_blinds := a.hidden_assets_blinds ++
          [(amount_blind_low + (4294967296 : Scalar) * amount_blind_high, code_blind)],
        hidden_assets_commitments := a.hidden_assets_commitments ++
          [(compress (low_point + (4294967296 : Scalar) • high_point),
            compress (pcGensCommit (asset_type_to_scalar code.val) code_blind))],
        proof := none })) ∧
    (a.update .Liability amount code
        (some ((amount_blind_low, amount_blind_high), code_blind))
        (.ok (.Confidential (some low_point, some high_point))) =
      (.ok (), { a with
        hidden_liabilities := a.hidden_liabilities ++
          [((amount : Scalar), asset_type_to_scalar code.val)],
        hidden_liabilities_blinds := a.hidden_liabilities_blinds ++
          [(amount_blind_low + (4294967296 : Scalar) * amount_blind_high, code_blind)],
        hidden_liabilities_commitments := a.hidden_liabilities_commitments ++
          [(compress (low_point + (4294967296 : Scalar) • high_point),
            compress (pcGensCommit (asset_type_to_scalar code.val) code_blind))],
        proof := none })) ∧
    (a.hidden_assets.length = a.hidden_assets_blinds.length →
     a.hidden_assets_blinds.length = a.hidden_assets_commitments.length →
      ((a.update .Asset amount code
          (some ((amount_blind_low, amount_blind_high), code_blind))
          (.ok (.Confidential (some low_point, some high_point)))).2.hidden_assets[a.hidden_assets.length]? =
        some ((amount : Scalar), asset_type_to_scalar code.val) ∧
       (a.update .Asset amount code
          (some ((amount_blind_low, amount_blind_high), code_blind))
          (.ok (.Confidential (some low_point, some high_point)))).2.hidden_assets_blinds[a.hidden_assets.length]? =
        some (amount_blind_low + (4294967296 : Scalar) * amount_blind_high, code_blind) ∧
       (a.update .Asset amount code
          (some ((amount_blind_low, amount_blind_high), code_blind))
          (.ok (.Confidential (some low_point, some high_point)))).2.hidden_assets_commitments[a.hidden_assets.length]? =
        some (compress (low_point + (4294967296 : Scalar) • high_point),
              compress (pcGensCommit (asset_type_to_scalar code.val) code_blind)))) := by
  have hAsset : a.update .Asset amount code
      (some ((amount_blind_low, amount_blind_high), code_blind))
      (.ok (.Confidential (some low_point, some high_point))) =
      (.ok (), { a with
        hidden_assets := a.hidden_assets ++
          [((amount : Scalar), asset_type_to_scalar code.val)],
        hidden_assets_blinds := a.hidden_assets_blinds ++
          [(amount_blind_low + (4294967296 : Scalar) * amount_blind_high, code_blind)],
        hidden_assets_commitments := a.hidden_assets_commitments ++
          [(compress (low_point + (4294967296 : Scalar) • high_point),
            compress (pcGensCommit (asset_type_to_scalar code.val) code_blind))],
        proof := none }) := by
    simp only [smul_eq_pointMul]
    rfl
  refine ⟨hAsset, ?_, fun h1 h2 => ?_⟩
  · simp only [smul_eq_pointMul]
    rfl
  · rw [hAsset]
    refine ⟨List.getElem?_concat_length _ _, ?_, ?_⟩
    · rw [h1]
      exact List.getElem?_concat_length _ _
    · rw [h1, h2]
      exact List.getElem?_concat_length _ _

/-- C6 witness: concrete confidential update on an account whose three hidden
asset sequences are (equally) empty; the combined record, blind pair and
commitment pair all land at index `0`. -/
theorem C6_confidential_update_witness :
    (emptyAccount.update .Asset 10 ⟨3⟩ (some ((1, 2), 5))
        (.ok (.Confidential (some (6, 7), some (8, 9))))).2.hidden_assets[0]? =
      some ((10 : Scalar), asset_type_to_scalar 3) ∧
    (emptyAccount.update .Asset 10 ⟨3⟩ (some ((1, 2), 5))
        (.ok (.Confidential (some (6, 7), some (8, 9))))).2.hidden_assets_blinds[0]? =
      some ((1 : Scalar) + (4294967296 : Scalar) * 2, 5) ∧
    (emptyAccount.update .Asset 10 ⟨3⟩ (some ((1, 2), 5))
        (.ok (.Confidential (some (6, 7), some (8, 9))))).2.hidden_assets_commitments[0]? =
      some (compress ((6, 7) + (4294967296 : Scalar) • (8, 9)),
            compress (pcGensCommit (asset_type_to_scalar 3) 5)) :=
  (C6_confidential_update emptyAccount 10 ⟨3⟩ 1 2 5 (6, 7) (8, 9)).2.2 rfl rfl

/-- C5 (confirmed): whenever `prove_solvency_and_store` fails — i.e. the
engine reported any error — the returned error is the error of the engine wrapped
as `ZeiError` at the prove call site, and the account (in particular its
proof slot) is exactly its pre-call value. -/
theorem C5_prove_failure_preserves_account (audit : SolvencyAudit)
    (engine : ProofEngine) (a : AssetAndLiabilityAccount) (err : PlatformError)
    (h : (audit.prove_solvency_and_store engine a).1 = .error err) :
    (∃ z, err = .ZeiError .proveEngine z) ∧
      (audit.prove_solvency_and_store engine a).2 = a := by
  simp only [SolvencyAudit.prove_solvency_and_store] at h ⊢
  revert h
  cases engine.prove_solvency a.hidden_assets a.hidden_assets_blinds
      a.public_assets a.hidden_liabilities a.hidden_liabilities_blinds
      a.public_liabilities audit.rates_for_prove with
  | error z =>
    intro h
    simp only [Except.error.injEq] at h
    exact ⟨⟨z, h.symm⟩, rfl⟩
  | ok p =>
    intro h
    simp at h

/-- C5 witness: with a failing engine and an account holding a previously
stored proof, a failed prove returns the wrapped engine error and leaves the
stored proof bytes untouched. -/
theorem C5_prove_failure_preserves_account_witness :
    (∃ z, (PlatformError.ZeiError .proveEngine .SolvencyProveError) =
       PlatformError.ZeiError .proveEngine z) ∧
    (SolvencyAudit.prove_solvency_and_store ⟨[]⟩ failEngine
       { emptyAccount with proof := some (some 7) }).2 =
      { emptyAccount with proof := some (some 7) } :=
  C5_prove_failure_preserves_account ⟨[]⟩ failEngine
    { emptyAccount with proof := some (some 7) }
    (.ZeiError .proveEngine .SolvencyProveError) rfl

/-- C8 (confirmed): `verify_solvency` fails with the missing-proof
`InputsError` — for every possible engine, hence without consulting the
engine — exactly when `account.proof` is `None`; and it never mutates the
account. -/
theorem C8_verify_missing_proof (audit : SolvencyAudit) (engine : ProofEngine)
    (a : AssetAndLiabilityAccount) :
    ((audit.verify_solvency engine a).1 =
        .error (.InputsError .verifyMissingProof) ↔ a.proof = none) ∧
      (audit.verify_solvency engine a).2 = a := by
  simp only [SolvencyAudit.verify_solvency]
  cases hp : a.proof with
  | none => simp
  | some p =>
    cases p with
    | none => simp [fromBytes]
    | some pr =>
      simp only [fromBytes]
      cases hv : engine.verify_solvency a.hidden_assets_commitments a.public_assets
          a.hidden_liabilities_commitments a.public_liabilities
          audit.rates_for_verify pr with
      | error z => simp
      | ok u => simp

/-- C8 witness: on a freshly created account (no prior successful prove),
`verify_solvency` fails with the missing-proof `InputsError` regardless of
the engine — instantiated here with the always-accepting engine. -/
theorem C8_verify_missing_proof_witness :
    (SolvencyAudit.verify_solvency ⟨[]⟩ okEngine emptyAccount).1 =
      .error (.InputsError .verifyMissingProof) :=
  (C8_verify_missing_proof ⟨[]⟩ okEngine emptyAccount).1.mpr rfl

/-- The hidden-sequence alignment invariant of an account: each hidden list has
a blind list and a commitment list of equal length. -/
def balanced (a : AssetAndLiabilityAccount) : Prop :=
  a.hidden_assets.length = a.hidden_assets_blinds.length ∧
  a.hidden_assets_blinds.length = a.hidden_assets_commitments.length ∧
  a.hidden_liabilities.length = a.hidden_liabilities_blinds.length ∧
  a.hidden_liabilities_blinds.length = a.hidden_liabilities_commitments.length

/-- A successful `updateSequences` preserves the alignment invariant: the
plaintext branch touches no hidden sequence, and the confidential branch
appends to all three hidden sequences of the chosen kind together. -/
theorem updateSequences_balanced (a a2 : AssetAndLiabilityAccount)
    (amount_type : AmountType) (amount : Nat) (code : AssetTypeCode)
    (blinds : Option ((Scalar × Scalar) × Scalar)) (xfr : XfrAmount)
    (h : balanced a)
    (hu : updateSequences a amount_type amount code blinds xfr = .ok a2) :
    balanced a2 := by
  obtain ⟨h1, h2, h3, h4⟩ := h
  unfold updateSequences at hu
  cases xfr with
  | NonConfidential fetched =>
    by_cases hf : fetched ≠ amount
    · simp [hf] at hu
    · cases amount_type with
      | Asset =>
        simp only [hf, if_false] at hu
        simp only [Except.ok.injEq] at hu
        subst hu
        exact ⟨h1, h2, h3, h4⟩
      | Liability =>
        simp only [hf, if_false] at hu
        simp only [Except.ok.injEq] at hu
        subst hu
        exact ⟨h1, h2, h3, h4⟩
  | Confidential c =>
    obtain ⟨lo, hi⟩ := c
    cases blinds with
    | none => simp at hu
    | some b =>
      obtain ⟨⟨bl, bh⟩, cb⟩ := b
      cases lo with
      | none => simp [get_decompressed_commitment] at hu
      | some pl =>
        cases hi with
        | none => simp [get_decompressed_commitment] at hu
        | some ph =>
          cases amount_type with
          | Asset =>
            simp only [get_decompressed_commitment, Except.ok.injEq] at hu
            subst hu
            refine ⟨?_, ?_, h3, h4⟩ <;> simp [List.length_append, h1, h2]
          | Liability =>
            simp only [get_decompressed_commitment, Except.ok.injEq] at hu
            subst hu
            refine ⟨h1, h2, ?_, ?_⟩ <;> simp [List.length_append, h3, h4]

/-- Verification never changes the account: the returned account is the
argument, in every branch. -/
theorem verify_solvency_account (audit : SolvencyAudit) (engine : ProofEngine)
    (a : AssetAndLiabilityAccount) : (audit.verify_solvency engine a).2 = a := by
  simp only [SolvencyAudit.verify_solvency]
  cases hp : a.proof with
  | none => rfl
  | some p =>
    cases p with
    | none => rfl
    | some pr =>
      simp only [fromBytes]
      cases engine.verify_solvency a.hidden_assets_commitments a.public_assets
          a.hidden_liabilities_commitments a.public_liabilities
          audit.rates_for_verify pr with
      | error z => rfl
      | ok u => rfl

/-- C9 (confirmed): `update`, `prove_solvency_and_store` and
`verify_solvency` all preserve the equal-length pairing of each hidden
sequence with its blind and commitment sequences, whether the call succeeds
or fails. -/
theorem C9_operations_preserve_balance (audit : SolvencyAudit)
    (engine : ProofEngine) (a : AssetAndLiabilityAccount)
    (amount_type : AmountType) (amount : Nat) (code : AssetTypeCode)
    (blinds : Option ((Scalar × Scalar) × Scalar))
    (query_result : Except PlatformError XfrAmount) (h : balanced a) :
    balanced (a.update amount_type amount code blinds query_result).2 ∧
    balanced (audit.prove_solvency_and_store engine a).2 ∧
    balanced (audit.verify_solvency engine a).2 := by
  refine ⟨?_, ?_, ?_⟩
  · cases query_result with
    | error e => exact h
    | ok xfr =>
      simp only [AssetAndLiabilityAccount.update]
      cases hu : updateSequences a amount_type amount code blinds xfr with
      | error e => exact h
      | ok a2 =>
        exact updateSequences_balanced a a2 amount_type amount code blinds xfr h hu
  · simp only [SolvencyAudit.prove_solvency_and_store]
    cases engine.prove_solvency a.hidden_assets a.hidden_assets_blinds
        a.public_assets a.hidden_liabilities a.hidden_liabilities_blinds
        a.public_liabilities audit.rates_for_prove with
    | error z => exact h
    | ok p => exact h
  · rw [verify_solvency_account]
    exact h

/-- C9 witness: starting from the (balanced) fresh account, one confidential
update, one prove under the always-accepting engine, and one verify all
yield balanced accounts. -/
theorem C9_operations_preserve_balance_witness :
    balanced (emptyAccount.update .Asset 10 ⟨3⟩ (some ((1, 2), 5))
      (.ok (.Confidential (some (6, 7), some (8, 9))))).2 ∧
    balanced (SolvencyAudit.prove_solvency_and_store ⟨[]⟩ okEngine emptyAccount).2 ∧
    balanced (SolvencyAudit.verify_solvency ⟨[]⟩ okEngine emptyAccount).2 :=
  C9_operations_preserve_balance ⟨[]⟩ okEngine emptyAccount .Asset 10 ⟨3⟩
    (some ((1, 2), 5)) (.ok (.Confidential (some (6, 7), some (8, 9))))
    ⟨rfl, rfl, rfl, rfl⟩

/-- Lookup after a single `LinearMap` insertion: the inserted key now maps to
the new value; every other key is unaffected. -/
theorem linearMapGet_insert (m : LinearMap) (k v c : Scalar) :
    linearMapGet (linearMapInsert m k v) c =
      if k = c then some v else linearMapGet m c := by
  induction m with
  | nil => simp [linearMapInsert, linearMapGet]
  | cons hd tl ih =>
    obtain ⟨k2, v2⟩ := hd
    simp only [linearMapInsert]
    by_cases h1 : k2 = k
    · subst h1
      simp only [if_pos rfl, linearMapGet]
      by_cases h2 : k2 = c
      · subst h2
        simp
      · simp [h2]
    · simp only [if_neg h1, linearMapGet]
      by_cases h2 : k2 = c
      · subst h2
        have hkc : ¬k = k2 := fun hkc => h1 hkc.symm
        simp [hkc]
      · simp [h2, ih]

/-- Lookup in the map obtained by folding `insert` over a table equals a
direct last-write-wins fold over that table. -/
theorem linearMapGet_foldl_insert (l : List CodeAndRate) (m : LinearMap)
    (c : Scalar) :
    linearMapGet (l.foldl (fun acc cr => linearMapInsert acc cr.1 cr.2) m) c =
      l.foldl (fun acc cr => if cr.1 = c then some cr.2 else acc)
        (linearMapGet m c) := by
  induction l generalizing m with
  | nil => rfl
  | cons hd tl ih =>
    simp only [List.foldl_cons]
    rw [ih, linearMapGet_insert]

/-- The rate of the last entry of the table carrying the given code, if any:
the resolution policy the claim describes. -/
def lastRateInTable (table : List CodeAndRate) (c : Scalar) : Option Scalar :=
  table.foldl (fun acc cr => if cr.1 = c then some cr.2 else acc) none

/-- C10 (confirmed): the rate-lookup maps that `prove_solvency_and_store`
and `verify_solvency` hand to the engine resolve every code — duplicated or
not — to the rate of the last entry appended by `set_rate` (last write
wins), the two maps built from the same table are identical, and after
`set_rate code rate` the code resolves to exactly that rate. -/
theorem C10_duplicate_rates_last_write_wins (audit : SolvencyAudit)
    (c : Scalar) (code : AssetTypeCode) (rate : Nat) :
    (linearMapGet audit.rates_for_prove c = lastRateInTable audit.conversion_rates c) ∧
    (audit.rates_for_verify = audit.rates_for_prove) ∧
    (linearMapGet ((audit.set_rate code rate).rates_for_prove)
        (asset_type_to_scalar code.val) = some ((rate : Nat) : Scalar)) := by
  refine ⟨?_, rfl, ?_⟩
  · simpa [SolvencyAudit.rates_for_prove, lastRateInTable, linearMapGet] using
      linearMapGet_foldl_insert audit.conversion_rates [] c
  · simp [SolvencyAudit.set_rate, SolvencyAudit.rates_for_prove,
      List.foldl_append, linearMapGet_insert]

/-- The concrete account used to refute the rate pre-check claim: one public
asset whose code scalar has no entry in the (empty) rate table. -/
def unratedAccount : AssetAndLiabilityAccount :=
  { emptyAccount with public_assets := [((10 : Scalar), asset_type_to_scalar 5)] }

/-- C1 counterexample: the single entry of the account has a code with no
matching rate entry (the table is empty and the lookup map resolves it to
`none`), yet `prove_solvency_and_store` and `verify_solvency` still invoke
the engine — under an accepting engine both return success instead of any
missing-rate failure — and under an engine failing the way the test of the module itself observes, the error is the wrapped `SolvencyProveError`, produced after
the engine was invoked, not a distinct missing-rate error of the module. -/
theorem C1_counterexample :
    linearMapGet (SolvencyAudit.rates_for_prove ⟨[]⟩) (asset_type_to_scalar 5) = none ∧
    (SolvencyAudit.prove_solvency_and_store ⟨[]⟩ okEngine unratedAccount).1 = .ok () ∧
    (SolvencyAudit.verify_solvency ⟨[]⟩ okEngine
      { unratedAccount with proof := some (some 42) }).1 = .ok () ∧
    (SolvencyAudit.prove_solvency_and_store ⟨[]⟩ failEngine unratedAccount).1 =
      .error (.ZeiError .proveEngine .SolvencyProveError) :=
  ⟨rfl, rfl, rfl, rfl⟩

/-- C1 (corrected): the module performs no rate pre-check of its own.
`prove_solvency_and_store` succeeds exactly when the engine — invoked
unconditionally with all four sequences in full and the rate map built from
the whole table — returns a proof; any engine failure (including a missing
rate, which only the engine detects) is returned wrapped as `ZeiError` at
the corresponding call site, for `prove` and for `verify` alike, so no entry
is ever silently skipped by the module. -/
theorem C1_amended_no_rate_precheck (engine : ProofEngine)
    (audit : SolvencyAudit) (a : AssetAndLiabilityAccount) :
    ((audit.prove_solvency_and_store engine a).1 = .ok () ↔
      ∃ p, engine.prove_solvency a.hidden_assets a.hidden_assets_blinds
        a.public_assets a.hidden_liabilities a.hidden_liabilities_blinds
        a.public_liabilities audit.rates_for_prove = .ok p) ∧
    (∀ z, engine.prove_solvency a.hidden_assets a.hidden_assets_blinds
        a.public_assets a.hidden_liabilities a.hidden_liabilities_blinds
        a.public_liabilities audit.rates_for_prove = .error z →
      (audit.prove_solvency_and_store engine a).1 =
        .error (.ZeiError .proveEngine z)) ∧
    (∀ pr z, a.proof = some (some pr) →
      engine.verify_solvency a.hidden_assets_commitments a.public_assets
        a.hidden_liabilities_commitments a.public_liabilities
        audit.rates_for_verify pr = .error z →
      (audit.verify_solvency engine a).1 =
        .error (.ZeiError .verifyEngine z)) := by
  refine ⟨?_, fun z hz => ?_, fun pr z hp hz => ?_⟩
  · simp only [SolvencyAudit.prove_solvency_and_store]
    cases engine.prove_solvency a.hidden_assets a.hidden_assets_blinds
        a.public_assets a.hidden_liabilities a.hidden_liabilities_blinds
        a.public_liabilities audit.rates_for_prove with
    | error z => simp
    | ok p => simp
  · simp [SolvencyAudit.prove_solvency_and_store, hz]
  · simp [SolvencyAudit.verify_solvency, hp, fromBytes, hz]

/-- C1 amended-claim witness: with the failing engine of the missing-rate test of the module itself, proving the unrated account returns the wrapped
`SolvencyProveError`. -/
theorem C1_amended_no_rate_precheck_witness :
    (SolvencyAudit.prove_solvency_and_store ⟨[]⟩ failEngine unratedAccount).1 =
      .error (.ZeiError .proveEngine .SolvencyProveError) :=
  (C1_amended_no_rate_precheck failEngine ⟨[]⟩ unratedAccount).2.1
    .SolvencyProveError rfl

/-- An audit table rating the sample code scalar `5` at rate `1`. -/
def rateAudit : SolvencyAudit := ⟨[(asset_type_to_scalar 5, (1 : Scalar))]⟩

/-- An account with one hidden asset whose stored commitment pair is the
actual Pedersen commitment of its witness `(value 10, blind 3)` and code
`(5, blind 4)`. -/
def hiddenAccountGood : AssetAndLiabilityAccount :=
  { emptyAccount with
    hidden_assets := [((10 : Scalar), asset_type_to_scalar 5)],
    hidden_assets_blinds := [((3 : Scalar), (4 : Scalar))],
    hidden_assets_commitments :=
      [(compress (pcGensCommit 10 3), compress (pcGensCommit (asset_type_to_scalar 5) 4))] }

/-- The same account with the stored commitment pair replaced by garbage that
no hidden witness of the account opens. -/
def hiddenAccountGarbage : AssetAndLiabilityAccount :=
  { hiddenAccountGood with
    hidden_assets_commitments := [(compress (99, 98), compress (97, 96))] }

/-- C2 counterexample: the stored commitment of the garbage account differs from
the commitment its witness opens, yet `prove_solvency_and_store` returns the
very same result and stores the very same proof bytes as on the honest
account — the stored commitment sequences are not bound into the prove
call. -/
theorem C2_counterexample :
    hiddenAccountGarbage.hidden_assets_commitments ≠
      [(compress (pcGensCommit 10 3), compress (pcGensCommit (asset_type_to_scalar 5) 4))] ∧
    (SolvencyAudit.prove_solvency_and_store rateAudit okEngine hiddenAccountGood).1 = .ok () ∧
    (SolvencyAudit.prove_solvency_and_store rateAudit okEngine hiddenAccountGarbage).1 = .ok () ∧
    (SolvencyAudit.prove_solvency_and_store rateAudit okEngine hiddenAccountGood).2.proof =
      (SolvencyAudit.prove_solvency_and_store rateAudit okEngine hiddenAccountGarbage).2.proof := by
  refine ⟨?_, rfl, rfl, rfl⟩
  decide

/-- C2 (corrected): `prove_solvency_and_store` passes the hidden
`(value, blind)` pairs, the public entries and the rate map to the engine,
but not the stored commitment sequences: for every engine, its result and
the proof it stores are invariant under arbitrary replacement of both
commitment sequences.  The stored commitments are consumed only by
`verify_solvency`, which does hand them to the engine — witnessed by a
commitment-inspecting engine that accepts one commitment list and rejects
another on otherwise identical accounts. -/
theorem C2_amended_commitments_not_bound_in_prove :
    (∀ (engine : ProofEngine) (audit : SolvencyAudit)
       (a : AssetAndLiabilityAccount) (X Y : List AmountAndCodeCommitment),
       ((audit.prove_solvency_and_store engine
           { a with hidden_assets_commitments := X,
                    hidden_liabilities_commitments := Y }).1 =
         (audit.prove_solvency_and_store engine a).1) ∧
       ((audit.prove_solvency_and_store engine
           { a with hidden_assets_commitments := X,
                    hidden_liabilities_commitments := Y }).2.proof =
         (audit.prove_solvency_and_store engine a).2.proof)) ∧
    ((SolvencyAudit.verify_solvency rateAudit commitSensitiveEngine
        { hiddenAccountGood with hidden_assets_commitments := [],
                                 proof := some (some 0) }).1 ≠
      (SolvencyAudit.verify_solvency rateAudit commitSensitiveEngine
        { hiddenAccountGood with proof := some (some 0) }).1) := by
  constructor
  · intro engine audit a X Y
    simp only [SolvencyAudit.prove_solvency_and_store]
    cases engine.prove_solvency a.hidden_assets a.hidden_assets_blinds
        a.public_assets a.hidden_liabilities a.hidden_liabilities_blinds
        a.public_liabilities audit.rates_for_prove with
    | error z => exact ⟨rfl, rfl⟩
    | ok p => exact ⟨rfl, rfl⟩
  · intro hcontra
    simp [SolvencyAudit.verify_solvency, fromBytes, commitSensitiveEngine,
      hiddenAccountGood, emptyAccount] at hcontra

end Solvency
